import Mathlib

/-!
Shallow embedding of the cubiculum interval/annotation library: the BED
record model (`Interval`, `BedEntry`, the `Coordinates` capability),
the interval algebra (`intersection`, `merge_multiple`, `total_span`),
the fraction-extraction engine (`bed_to_fraction`) and the block splicer
(`graft`), translated from `src/merge/merge.rs`, `src/structs/structs.rs`
and `src/extract/extract.rs`.

Modelling conventions:
* `u64` is modelled as `Nat`; Rust's `checked_sub` is `checkedSub`.
  Plain `u64` subtraction is modelled as truncated `Nat` subtraction at
  the places where the surrounding checks of the source rule out
  underflow; the one reachable underflow (`ex_num - 1` in
  `bed_to_fraction`) is modelled explicitly with `checkedSub`, since in
  the source it aborts the process.
* A Rust `panic!` / failed `unwrap` / failed assert is modelled by a
  dedicated `crash`-style result (or `none` where the caller would
  immediately `unwrap` it).
* Line tokenization and numeric field parsing are external collaborators
  of the core (spec §6), so `parse_bed` and `bed_to_fraction` are
  embedded from the point where the column values are available; the
  strand column is kept as a raw string because the code consumes it as
  a string (`data[5] == "+"`).
* Rust's stable `sort_by` with the (start, end) comparator is modelled
  by the stable `List.insertionSort` with the same total preorder.
-/

namespace Cubiculum

/-- Rust `u64::checked_sub`: `some (a - b)` when `b ≤ a`, else `none`. -/
def checkedSub (a b : Nat) : Option Nat :=
  if b ≤ a then some (a - b) else none

/-- `Interval` from `structs.rs`: all fields independently optional. -/
structure Interval where
  chrom : Option String
  start : Option Nat
  end_ : Option Nat
  name : Option String
deriving DecidableEq

/-- `Interval::new()`. -/
def Interval.new : Interval := ⟨none, none, none, none⟩

/-- `BedEntry` from `structs.rs`: progressive-schema BED record. -/
structure BedEntry where
  format : Option Nat
  chrom : Option String
  thin_start : Option Nat
  thin_end : Option Nat
  name : Option String
  score : Option String
  strand : Option Bool
  thick_start : Option Nat
  thick_end : Option Nat
  rgb : Option String
  exon_num : Option Nat
  exon_sizes : Option (List Nat)
  exon_starts : Option (List Nat)
deriving DecidableEq

/-- `BedEntry::empty()`. -/
def BedEntry.empty : BedEntry :=
  ⟨none, none, none, none, none, none, none, none, none, none, none, none, none⟩

/-- `BedEntry::bed3`. -/
def BedEntry.bed3 (chrom : String) (start end_ : Nat) : BedEntry :=
  { BedEntry.empty with
    format := some 3, chrom := some chrom,
    thin_start := some start, thin_end := some end_ }

/-- `BedEntry::bed4`. -/
def BedEntry.bed4 (chrom : String) (start end_ : Nat) (name : String) : BedEntry :=
  { BedEntry.bed3 chrom start end_ with format := some 4, name := some name }

/-- `BedEntry::bed5`. -/
def BedEntry.bed5 (chrom : String) (start end_ : Nat) (name score : String) : BedEntry :=
  { BedEntry.bed4 chrom start end_ name with format := some 5, score := some score }

/-- `BedEntry::bed6`. -/
def BedEntry.bed6 (chrom : String) (start end_ : Nat) (name score : String)
    (strand : Bool) : BedEntry :=
  { BedEntry.bed5 chrom start end_ name score with format := some 6, strand := some strand }

/-- `BedEntry::bed8`. -/
def BedEntry.bed8 (chrom : String) (start end_ : Nat) (name score : String)
    (strand : Bool) (thick_start thick_end : Nat) : BedEntry :=
  { BedEntry.bed6 chrom start end_ name score strand with
    format := some 8, thick_start := some thick_start, thick_end := some thick_end }

/-- `BedEntry::bed9`. -/
def BedEntry.bed9 (chrom : String) (start end_ : Nat) (name score : String)
    (strand : Bool) (thick_start thick_end : Nat) (rgb : String) : BedEntry :=
  { BedEntry.bed8 chrom start end_ name score strand thick_start thick_end with
    format := some 9, rgb := some rgb }

/-- `BedEntry::bed12`. -/
def BedEntry.bed12 (chrom : String) (start end_ : Nat) (name score : String)
    (strand : Bool) (thick_start thick_end : Nat) (rgb : String)
    (exon_num : Nat) (exon_sizes exon_starts : List Nat) : BedEntry :=
  { BedEntry.bed9 chrom start end_ name score strand thick_start thick_end rgb with
    format := some 12, exon_num := some exon_num,
    exon_sizes := some exon_sizes, exon_starts := some exon_starts }

/-- `BedEntry::format()`: returns 0 when the format tag is unset. -/
def BedEntry.formatD (b : BedEntry) : Nat := b.format.getD 0

/-- The `Coordinates` capability trait from `structs.rs`. -/
class Coordinates (α : Type) where
  chrom : α → Option String
  start : α → Option Nat
  end_ : α → Option Nat
  length : α → Option Nat

instance : Coordinates Interval where
  chrom i := i.chrom
  start i := i.start
  end_ i := i.end_
  length i :=
    match i.start, i.end_ with
    | some a, some b => checkedSub b a
    | _, _ => none

instance : Coordinates BedEntry where
  chrom b := b.chrom
  start b := b.thin_start
  end_ b := b.thin_end
  length b :=
    match b.thin_start, b.thin_end with
    | some a, some b => checkedSub b a
    | _, _ => none

@[simp] theorem coord_chrom_interval (i : Interval) :
    Coordinates.chrom i = i.chrom := rfl

@[simp] theorem coord_start_interval (i : Interval) :
    Coordinates.start i = i.start := rfl

@[simp] theorem coord_end_interval (i : Interval) :
    Coordinates.end_ i = i.end_ := rfl

/-- `intersection` from `merge.rs`: checked difference of the
intersection bounds, `min(end1,end2) - max(start1,start2)`. -/
def intersection (start1 end1 start2 end2 : Nat) : Option Nat :=
  let min_end := min end1 end2
  let max_start := max start1 start2
  checkedSub min_end max_start

/-- The comparator of the `sort_by` calls in `merge.rs` and `structs.rs`:
compare by start coordinate, tie-break by end coordinate.  The source
unwraps `start()`/`end()` (panicking on undefined coordinates); the
embedding reads them with default 0 and is only used, as in every call
site, on fully defined coordinates. -/
def coordLe {α : Type} [Coordinates α] (a b : α) : Prop :=
  (Coordinates.start a).getD 0 < (Coordinates.start b).getD 0 ∨
    ((Coordinates.start a).getD 0 = (Coordinates.start b).getD 0 ∧
      (Coordinates.end_ a).getD 0 ≤ (Coordinates.end_ b).getD 0)

instance {α : Type} [Coordinates α] : DecidableRel (coordLe (α := α)) := fun a b => by
  unfold coordLe; exact inferInstance

instance {α : Type} [Coordinates α] : IsTotal α coordLe :=
  ⟨by intro a b; unfold coordLe; omega⟩

instance {α : Type} [Coordinates α] : IsTrans α coordLe :=
  ⟨by intro a b c; unfold coordLe; omega⟩

/-- One iteration of the `merge_multiple` loop from `merge.rs`.  The
state is `(prev_start, prev_end, out_vec)`; `none` models the panics of
the `unwrap` calls on undefined coordinates.  NOTE (faithful to the
source): in the no-intersection branch the source builds the decoy
`Interval` but never pushes it to `out_vec`. -/
def mergeStep {α : Type} [Coordinates α]
    (st : Nat × Nat × List Interval) (el : α) : Option (Nat × Nat × List Interval) :=
  match Coordinates.start el, Coordinates.end_ el, Coordinates.chrom el with
  | some curr_start, some curr_end, some ch =>
    let prev_start := st.1
    let prev_end := st.2.1
    let out_vec := st.2.2
    match intersection prev_start prev_end curr_start curr_end with
    | some _ =>
      let ps := min prev_start curr_start
      let pe := max prev_end curr_end
      some (ps, pe, out_vec.dropLast ++ [⟨some ch, some ps, some pe, none⟩])
    | none =>
      some (curr_start, curr_end, out_vec)
  | _, _, _ => none

/-- `merge_multiple` from `merge.rs`: fold of `mergeStep` over the input
vector, starting from `prev_start = prev_end = 0` and an empty output. -/
def merge_multiple {α : Type} [Coordinates α] (intervals : List α) :
    Option (List Interval) :=
  if intervals.length = 0 then some [] else
    (intervals.foldlM mergeStep (0, 0, [])).map (fun st => st.2.2)

/-- The `"chrom:start-end"` name built by `total_span`. -/
def spanName (chrom : String) (start end_ : Nat) : String :=
  s!"{chrom}:{start}-{end_}"

/-- `total_span` from `merge.rs`: sort by (start, end), then take the
chromosome and start of the first interval and the end of the LAST
interval of the sorted vector; `none` models the panics on an empty
vector or undefined fields. -/
def total_span {α : Type} [Coordinates α] (intervals : List α) : Option Interval :=
  let sorted := List.insertionSort coordLe intervals
  match sorted.head?, sorted.getLast? with
  | some first, some last => do
    let chrom ← Coordinates.chrom first
    let s ← Coordinates.start first
    let e ← Coordinates.end_ last
    some ⟨some chrom, some s, some e, some (spanName chrom s e)⟩
  | _, _ => none

/-- `BedEntry::to_blocks()` from `structs.rs`: decompose a format-12
record into one BED6 record per exon block.  `none` covers both the
source's `None` returns and the panic of `self.format.unwrap()` when the
format tag is unset (its only caller here immediately unwraps). -/
def to_blocks (self : BedEntry) : Option (List BedEntry) :=
  match self.format with
  | none => none
  | some f =>
    if f ≠ 12 then none
    else do
      let chrom ← self.chrom
      let thin_start ← self.thin_start
      let name ← self.name
      let ex_num ← self.exon_num
      let score := self.score.getD "0"
      let strand ← self.strand
      let starts ← self.exon_starts
      let sizes ← self.exon_sizes
      (List.range ex_num).mapM (fun i => do
        let es ← starts[i]?
        let sz ← sizes[i]?
        some (BedEntry.bed6 chrom (thin_start + es) (thin_start + es + sz)
          name score strand))

/-- `BedEntry::from_interval` from `structs.rs`: project a coordinates
object onto a BED3 record, `none` when chrom/start/end are undefined. -/
def from_interval {α : Type} [Coordinates α] (inter : α) : Option BedEntry := do
  let chrom ← Coordinates.chrom inter
  let s ← Coordinates.start inter
  let e ← Coordinates.end_ inter
  some (BedEntry.bed3 chrom s e)

/-- Result of a loop body / of the whole `graft` computation before the
in-place vs. fresh-record split: a panic, an early `return None`
(refusal), or a normal completion. -/
inductive LoopRes (σ : Type) where
  | crash
  | refuse
  | done (st : σ)
deriving DecidableEq

/-- The `append_upstream` loop of `graft` (structs.rs lines 557-589).
State: `(exon_sizes, exon_starts, graft_len, grafted, to_merge)`.
`thick_start` is the value after the `coding` update. -/
def upLoop (thin_start thick_start graft_start : Nat)
    (updated_start allow_overlaps : Bool) :
    List Nat → List Nat × List Nat × Nat × Bool × Bool →
      LoopRes (List Nat × List Nat × Nat × Bool × Bool)
  | [], st => .done st
  | i :: rest, (sizes, starts, graft_len, grafted, to_merge) =>
    match starts[i]?, sizes[i]? with
    | some esi, some szi =>
      let exon_start := thin_start + esi
      let exon_end := exon_start + szi
      let hit := decide (exon_start ≤ graft_start) && decide (graft_start ≤ exon_end)
      if hit && !allow_overlaps then .refuse
      else
        let to_merge := to_merge || (hit && allow_overlaps)
        if exon_end > thick_start && !grafted then
          if exon_start < thick_start then
            let upd :=
              if graft_start < exon_start then
                (sizes.set i (szi + (exon_start - min graft_start exon_start)),
                 if i ≠ 0 then starts.set i (min graft_start exon_start - thin_start)
                 else starts,
                 exon_start - min graft_start exon_start)
              else (sizes, starts, graft_len)
            let st' := (upd.1, upd.2.1, upd.2.2, true, to_merge)
            if !updated_start then .done st'
            else upLoop thin_start thick_start graft_start updated_start
              allow_overlaps rest st'
          else
            let starts' := starts.set i
              (if i = 0 then 0 else min graft_start thick_start - thin_start)
            let sizes' := sizes.set i (szi + (exon_start - graft_start))
            let graft_len' := exon_start - min graft_start exon_start
            let st' := (sizes', starts', graft_len', true, to_merge)
            if !updated_start then .done st'
            else upLoop thin_start thick_start graft_start updated_start
              allow_overlaps rest st'
        else
          let starts' := if updated_start then starts.set i (esi + graft_len) else starts
          upLoop thin_start thick_start graft_start updated_start allow_overlaps rest
            (sizes, starts', graft_len, grafted, to_merge)
    | _, _ => .crash

/-- The `append_downstream` loop of `graft` (structs.rs lines 604-623),
iterating over block indices from last to first.  State:
`(exon_sizes, to_merge)`.  `thick_end` is the value after the `coding`
update. -/
def downLoop (thin_start thin_end thick_end graft_start graft_end : Nat)
    (allow_overlaps : Bool) (starts : List Nat) :
    List Nat → List Nat × Bool → LoopRes (List Nat × Bool)
  | [], st => .done st
  | i :: rest, (sizes, to_merge) =>
    match starts[i]?, sizes[i]? with
    | some esi, some szi =>
      let exon_start := thin_start + esi
      let exon_end := exon_start + szi
      let hit := decide (exon_start ≤ graft_end) && decide (graft_end ≤ exon_end)
      if hit && !allow_overlaps then .refuse
      else
        let to_merge := to_merge || (hit && allow_overlaps)
        if exon_start < thick_end then
          let sizes' :=
            if exon_end > thick_end then
              if graft_end > thin_end then
                sizes.set i (szi + (graft_end - max thick_end graft_start))
              else sizes
            else sizes.set i (szi + (graft_end - thick_end))
          .done (sizes', to_merge)
        else downLoop thin_start thin_end thick_end graft_start graft_end
          allow_overlaps starts rest (sizes, to_merge)
    | _, _ => .crash

/-- Index order of the `append_downstream` loop: `len-1, ..., 0`. -/
def downIdx (len : Nat) : List Nat := (List.range len).map (fun j => len - 1 - j)

/-- The `to_merge` phase of `graft` (structs.rs lines 629-672): decompose
the record into blocks, add the graft, sort, run `merge_multiple`, refuse
when blocks were lost and overlaps are not allowed, then rebuild the
coordinate fields from the merged block list. -/
def graftMerge (self : BedEntry) (gEntry : BedEntry)
    (allow_overlaps coding : Bool)
    (ts te ks ke graft_start graft_end : Nat) :
    LoopRes (Nat × Nat × Nat × Nat × Nat × List Nat × List Nat) :=
  match to_blocks self with
  | none => .crash
  | some blocks0 =>
    let blocks := blocks0 ++ [gEntry]
    let unmerged_block_num := blocks.length
    let sorted := List.insertionSort coordLe blocks
    match merge_multiple sorted with
    | none => .crash
    | some merged_blocks =>
      if merged_blocks.length < unmerged_block_num && !allow_overlaps then .refuse
      else
        let ts' := min ts graft_start
        let te' := max te graft_end
        let ks' := if coding then min ks graft_start else ks
        let ke' := if coding then max ke graft_end else ke
        match merged_blocks.mapM (fun it =>
            match it.start, it.end_ with
            | some s, some e => some (e - s, s - ts')
            | _, _ => none) with
        | none => .crash
        | some pairs =>
          .done (ts', te', ks', ke', merged_blocks.length,
            pairs.map Prod.fst, pairs.map Prod.snd)

/-- Outcome of `graft`: a panic, or the Rust return value together with
the post-state of `self` (mutated only by a successful in-place call). -/
inductive GraftOut where
  | crash
  | result (ret : Option BedEntry) (post : BedEntry)
deriving DecidableEq

/-- Shared chromosome check of `graft` under `chrom_compatible`. -/
def chromsAgree {α : Type} [Coordinates α] (self : BedEntry) (g : α) : Bool :=
  match self.chrom, Coordinates.chrom g with
  | some x, some y => x == y
  | _, _ => false

/-- Core of `graft` after the unwrap prelude: the three splicing modes,
the optional merge phase, and the in-place vs. fresh-record epilogue.
NOTE (faithful to the source, structs.rs lines 674-683): the in-place
epilogue assigns `thick_start` twice and never assigns `thick_end`, so a
mutated record keeps its old `thick_end`. -/
def graftBody {α : Type} [Coordinates α] (self : BedEntry) (g : α)
    (inplace allow_overlaps coding append_upstream append_downstream : Bool)
    (thin_start thick_start thin_end thick_end exon_num : Nat)
    (exon_sizes exon_starts : List Nat)
    (graft_start graft_end graft_len : Nat) : GraftOut :=
  let afterBranch :
      LoopRes (Nat × Nat × Nat × Nat × List Nat × List Nat × Bool) :=
    if append_upstream then
      if coding && thin_start ≠ thick_start then .crash
      else if !coding && thick_start < graft_start then .refuse
      else
        let updated_start := decide (graft_start < thin_start)
        let thick_start := if coding then graft_start else thick_start
        match upLoop thin_start thick_start graft_start updated_start allow_overlaps
            (List.range exon_sizes.length)
            (exon_sizes, exon_starts, graft_len, false, false) with
        | .crash => .crash
        | .refuse => .refuse
        | .done (sizes, starts, _, _, tm) =>
          .done (min thin_start graft_start, thin_end, thick_start, thick_end,
            sizes, starts, tm)
    else if append_downstream then
      if coding && thin_end ≠ thick_end then .crash
      else if !coding && graft_end < thick_end then .refuse
      else
        let thick_end := if coding then graft_end else thick_end
        match downLoop thin_start thin_end thick_end graft_start graft_end
            allow_overlaps exon_starts (downIdx exon_sizes.length)
            (exon_sizes, false) with
        | .crash => .crash
        | .refuse => .refuse
        | .done (sizes, tm) =>
          .done (thin_start, max graft_end thin_end, thick_start, thick_end,
            sizes, exon_starts, tm)
    else
      .done (thin_start, thin_end, thick_start, thick_end,
        exon_sizes, exon_starts, true)
  match afterBranch with
  | .crash => .crash
  | .refuse => .result none self
  | .done (ts, te, ks, ke, sizes, starts, to_merge) =>
    let merged : LoopRes (Nat × Nat × Nat × Nat × Nat × List Nat × List Nat) :=
      if to_merge then
        match from_interval g with
        | none => .crash
        | some gEntry =>
          graftMerge self gEntry allow_overlaps coding ts te ks ke
            graft_start graft_end
      else .done (ts, te, ks, ke, exon_num, sizes, starts)
    match merged with
    | .crash => .crash
    | .refuse => .result none self
    | .done (ts, te, ks, ke, en, sizes, starts) =>
      if inplace then
        .result none
          { self with
            thin_start := some ts, thin_end := some te,
            thick_start := some ks,
            exon_num := some en,
            exon_sizes := some sizes, exon_starts := some starts }
      else
        .result
          (some { BedEntry.empty with
            format := some 12, chrom := self.chrom,
            thin_start := some ts, thin_end := some te,
            name := self.name, score := self.score, strand := self.strand,
            thick_start := some ks, thick_end := some ke,
            rgb := self.rgb, exon_num := some en,
            exon_sizes := some sizes, exon_starts := some starts })
          self

/-- `BedEntry::graft` from `structs.rs`: validation and unwrap prelude,
then `graftBody`. -/
def graft {α : Type} [Coordinates α] (self : BedEntry) (g : α)
    (inplace chrom_compatible allow_overlaps coding
      append_upstream append_downstream : Bool) : GraftOut :=
  if append_upstream && append_downstream then .crash
  else if self.formatD ≠ 12 then .crash
  else if chrom_compatible && !(chromsAgree self g) then .crash
  else
    match self.thin_start, self.thick_start, self.thin_end, self.thick_end with
    | some thin_start, some thick_start, some thin_end, some thick_end =>
      match self.exon_num, self.exon_sizes, self.exon_starts,
          Coordinates.start g, Coordinates.end_ g with
      | some exon_num, some exon_sizes, some exon_starts,
          some graft_start, some graft_end =>
        match Coordinates.length g with
        | some graft_len =>
          graftBody self g inplace allow_overlaps coding
            append_upstream append_downstream
            thin_start thick_start thin_end thick_end exon_num
            exon_sizes exon_starts graft_start graft_end graft_len
        | none => .crash
      | _, _, _, _, _ => .crash
    | _, _, _, _ => .crash

/-- `BedFractionMode` from `extract.rs`. -/
inductive BedFractionMode where
  | All
  | Cds
  | Utr
  | Utr5
  | Utr3
deriving DecidableEq

/-- Outcome of `bed_to_fraction`: process abort (`crash`), the `None`
"no data" result, or an output line (or newline-joined BED6 lines). -/
inductive FractionOut where
  | crash
  | noData
  | line (s : String)
deriving DecidableEq

/-- The per-block loop of `bed_to_fraction` (extract.rs lines 407-499).
Iterates over the block indices, carrying `(seq_start, upd_block_starts,
upd_block_sizes)`; `none` models the panics of out-of-bounds indexing
into `exon_starts`/`exon_sizes`; an early `some` models `break`. -/
def fractionLoop (thin_start thick_start thick_end : Nat)
    (exon_sizes exon_starts : List Nat) (mode : BedFractionMode)
    (intron report_up report_down noncoding report_coding : Bool) :
    List Nat → Nat → List Nat → List Nat →
      Option (Nat × List Nat × List Nat)
  | [], seq_start, upds, upsz => some (seq_start, upds, upsz)
  | i :: rest, seq_start, upds, upsz =>
    match exon_starts[i]?, exon_sizes[i]? with
    | some esi, some szi =>
      let block_start := esi + thin_start
      let block_end := block_start + szi
      let upstream_to_cds := decide (block_end ≤ thick_start)
      let downstream_to_cds := decide (thick_end ≤ block_start)
      let upstream_and_report := upstream_to_cds &&
        ((mode == BedFractionMode.Utr) || report_up || noncoding)
      let downstream_and_report := downstream_to_cds &&
        ((mode == BedFractionMode.Utr) || report_down || noncoding)
      if upstream_to_cds || downstream_to_cds then
        if upstream_and_report || downstream_and_report ||
            (mode == BedFractionMode.All) then
          if intron then
            let seq' := if upds.isEmpty then block_end else seq_start
            match exon_starts[i + 1]? with
            | none => none
            | some nes =>
              fractionLoop thin_start thick_start thick_end exon_sizes exon_starts
                mode intron report_up report_down noncoding report_coding rest
                seq' (upds ++ [block_end - seq'])
                (upsz ++ [nes + thin_start - block_end])
          else
            let seq' := if downstream_to_cds && upds.isEmpty
              then block_start - thin_start else seq_start
            fractionLoop thin_start thick_start thick_end exon_sizes exon_starts
              mode intron report_up report_down noncoding report_coding rest
              seq' (upds ++ [block_start - seq'])
              (upsz ++ [block_end - block_start])
        else
          fractionLoop thin_start thick_start thick_end exon_sizes exon_starts
            mode intron report_up report_down noncoding report_coding rest
            seq_start upds upsz
      else if report_down && decide (block_end ≤ thick_end) then
        fractionLoop thin_start thick_start thick_end exon_sizes exon_starts
          mode intron report_up report_down noncoding report_coding rest
          seq_start upds upsz
      else if intron && report_coding then
        let seq' := if upds.isEmpty then block_end else seq_start
        if thick_end ≤ block_end then some (seq', upds, upsz)
        else
          match exon_starts[i + 1]? with
          | none => none
          | some nes =>
            fractionLoop thin_start thick_start thick_end exon_sizes exon_starts
              mode intron report_up report_down noncoding report_coding rest
              seq' (upds ++ [block_end - seq'])
              (upsz ++ [nes + thin_start - block_end])
      else if mode == BedFractionMode.All then
        fractionLoop thin_start thick_start thick_end exon_sizes exon_starts
          mode intron report_up report_down noncoding report_coding rest
          seq_start (upds ++ [block_start - seq_start])
          (upsz ++ [block_end - block_start])
      else
        let upd_block_start := max block_start thick_start
        let upd_block_end := min block_end thick_end
        if mode == BedFractionMode.Cds then
          fractionLoop thin_start thick_start thick_end exon_sizes exon_starts
            mode intron report_up report_down noncoding report_coding rest
            seq_start (upds ++ [upd_block_start - seq_start])
            (upsz ++ [upd_block_end - upd_block_start])
        else if decide (block_start < upd_block_start) &&
            ((mode == BedFractionMode.Utr) || report_up) && !intron then
          let upds' := upds ++ [block_start - seq_start]
          let upsz' := upsz ++ [upd_block_start - block_start]
          if report_up then some (seq_start, upds', upsz')
          else
            fractionLoop thin_start thick_start thick_end exon_sizes exon_starts
              mode intron report_up report_down noncoding report_coding rest
              seq_start upds' upsz'
        else if decide (upd_block_end < block_end) &&
            ((mode == BedFractionMode.Utr) || report_down) then
          if intron then
            let seq' := if upds.isEmpty then block_end else seq_start
            match exon_starts[i + 1]? with
            | none => none
            | some nes =>
              fractionLoop thin_start thick_start thick_end exon_sizes exon_starts
                mode intron report_up report_down noncoding report_coding rest
                seq' (upds ++ [block_end - seq'])
                (upsz ++ [nes + thin_start - block_end])
          else
            let seq' := if upds.isEmpty then upd_block_end else seq_start
            fractionLoop thin_start thick_start thick_end exon_sizes exon_starts
              mode intron report_up report_down noncoding report_coding rest
              seq' (upds ++ [upd_block_end - seq'])
              (upsz ++ [block_end - upd_block_end])
        else
          fractionLoop thin_start thick_start thick_end exon_sizes exon_starts
            mode intron report_up report_down noncoding report_coding rest
            seq_start upds upsz
    | _, _ => none

/-- Comma-join with a trailing comma, as the output formatting of
`bed_to_fraction` does for block sizes and starts. -/
def joinComma (xs : List Nat) : String :=
  String.intercalate "," (xs.map toString) ++ ","

/-- The BED6 output of `bed_to_fraction` (extract.rs lines 527-543):
one line per retained fragment, numbered ascending on `+`, descending
otherwise. -/
def bed6Lines (chrom name strand_line : String) (strand : Bool)
    (seq_start : Nat) (upds upsz : List Nat) : String :=
  let cnt := upsz.length
  String.intercalate "\n" (((upds.zip upsz).enum).map (fun p =>
    let bs := seq_start + p.2.1
    let be := bs + p.2.2
    let bn := if strand then p.1 + 1 else cnt - p.1
    s!"{chrom}\t{bs}\t{be}\t{name}\t{bn}\t{strand_line}"))

/-- The twelve-column output line of `bed_to_fraction`. -/
def bed12Line (chrom name score strand_line rgb : String)
    (thin_start thin_end thick_start thick_end cnt : Nat)
    (upds upsz : List Nat) : String :=
  let size_line := joinComma upsz
  let start_line := joinComma upds
  s!"{chrom}\t{thin_start}\t{thin_end}\t{name}\t{score}\t{strand_line}\t{thick_start}\t{thick_end}\t{rgb}\t{cnt}\t{size_line}\t{start_line}"

/-- `bed_to_fraction` from `extract.rs`, embedded from the point where
the twelve column values are available (tokenization and numeric parsing
are out-of-scope collaborators, spec §6).  The validation panics, the
strand comparison `data[5] == "+"`, the `ex_num - 1` underflow of the
intron range (a u64 subtraction that aborts the process when
`ex_num = 0`), the block scan, and both output forms are modelled. -/
def bed_to_fraction (chrom name score strand_line rgb : String)
    (thin_start thin_end thick_start thick_end ex_num : Nat)
    (exon_sizes exon_starts : List Nat)
    (mode : BedFractionMode) (intron bed6 : Bool) : FractionOut :=
  if thin_end < thin_start then .crash
  else if thick_start < thin_start then .crash
  else if thin_end < thick_end then .crash
  else if thick_end < thick_start then .crash
  else
    let strand := strand_line == "+"
    let report_up := (strand && (mode == BedFractionMode.Utr5)) ||
      (!strand && (mode == BedFractionMode.Utr3))
    let report_down := (strand && (mode == BedFractionMode.Utr3)) ||
      (!strand && (mode == BedFractionMode.Utr5))
    let noncoding := (thick_end - thick_start) == 0
    let report_coding := !noncoding &&
      ((mode == BedFractionMode.Cds) || (mode == BedFractionMode.All))
    let seq_start := match mode with
      | BedFractionMode.Cds => thick_start
      | _ => thin_start
    match (if intron then checkedSub ex_num 1 else some ex_num) with
    | none => .crash
    | some n =>
      if n = 0 then .noData
      else
        match fractionLoop thin_start thick_start thick_end exon_sizes exon_starts
            mode intron report_up report_down noncoding report_coding
            (List.range n) seq_start [] [] with
        | none => .crash
        | some (seq_start, upds, upsz) =>
          let cnt := upsz.length
          if cnt = 0 then .noData
          else
            let bounds :=
              match mode, intron with
              | BedFractionMode.All, false =>
                (thin_start, thin_end, thick_start, thick_end)
              | BedFractionMode.Cds, false =>
                (thick_start, thick_end, thick_start, thick_end)
              | BedFractionMode.Utr, false =>
                (thin_start, thin_end, thin_end, thin_end)
              | _, _ =>
                let e := seq_start + upds.getLastD 0 + upsz.getLastD 0
                (seq_start, e, e, e)
            if bed6 then
              .line (bed6Lines chrom name strand_line strand seq_start upds upsz)
            else
              .line (bed12Line chrom name score strand_line rgb
                bounds.1 bounds.2.1 bounds.2.2.1 bounds.2.2.2 cnt upds upsz)

/-- `parse_bed` from `extract.rs`, embedded from the point where the
column values are available (tokenization and numeric parsing are
out-of-scope collaborators, spec §6).  The strand column is kept raw:
the source records `data[5] == "+"` without validating the symbol.
`none` models the panics (illegal format specification, assert and
boundary checks). -/
def parse_bed (format : Nat) (chrom name score strand_line rgb : String)
    (thin_start thin_end thick_start thick_end : Nat) (ex_num : Nat)
    (exon_sizes exon_starts : List Nat) : Option BedEntry :=
  if format < 3 || format > 12 then none
  else if format = 10 || format = 11 then none
  else if thin_end < thin_start then none
  else if format = 3 then some (BedEntry.bed3 chrom thin_start thin_end)
  else if format = 4 then some (BedEntry.bed4 chrom thin_start thin_end name)
  else if format = 5 then some (BedEntry.bed5 chrom thin_start thin_end name score)
  else
    let strand := strand_line == "+"
    if format = 6 then
      some (BedEntry.bed6 chrom thin_start thin_end name score strand)
    else if thick_start < thin_start then none
    else if thin_end < thick_end then none
    else if thick_end < thick_start then none
    else if format = 8 then
      some (BedEntry.bed8 chrom thin_start thin_end name score strand
        thick_start thick_end)
    else if format = 9 then
      some (BedEntry.bed9 chrom thin_start thin_end name score strand
        thick_start thick_end rgb)
    else
      some (BedEntry.bed12 chrom thin_start thin_end name score strand
        thick_start thick_end rgb ex_num exon_sizes exon_starts)

/-! Theorems about the claims. -/

/-- C1: the claim fails on the code.  On the pre-sorted input
`[[0,5), [10,20)]` (all fields defined, shared chromosome), the
multi-interval merge returns only `[[0,5)]`: the no-overlap branch of
`merge_multiple` builds the standalone output interval but never pushes
it, so the span `[10,20)` is contained in no output interval. -/
theorem c1_merge_multiple_drops_standalone :
    merge_multiple [(⟨some "chr1", some 0, some 5, none⟩ : Interval),
        ⟨some "chr1", some 10, some 20, none⟩] =
      some [⟨some "chr1", some 0, some 5, none⟩] ∧
    ∀ iv ∈ [(⟨some "chr1", some 0, some 5, none⟩ : Interval)],
      ¬ (iv.start.getD 0 ≤ 10 ∧ 20 ≤ iv.end_.getD 0) := by
  constructor
  · decide
  · decide

/-- C2: the claim fails on the code.  Grafting `[10,20)` onto the fully
coding record `chr1 [0,10)` (one block, `thick = [0,10)`) with
`coding = true` and `append_downstream = true` succeeds in both modes,
and the non-in-place call leaves the original untouched, but the
in-place epilogue assigns `thick_start` twice and never `thick_end`:
the mutated record keeps `thick_end = 10` while the freshly returned
record has `thick_end = 20`. -/
theorem c2_graft_inplace_thick_end_stale :
    ∃ mutR newR : BedEntry,
      graft (BedEntry.bed12 "chr1" 0 10 "n" "0" true 0 10 "0" 1 [10] [0])
        (⟨some "chr1", some 10, some 20, none⟩ : Interval)
        true false false true false true = GraftOut.result none mutR ∧
      graft (BedEntry.bed12 "chr1" 0 10 "n" "0" true 0 10 "0" 1 [10] [0])
        (⟨some "chr1", some 10, some 20, none⟩ : Interval)
        false false false true false true = GraftOut.result (some newR)
          (BedEntry.bed12 "chr1" 0 10 "n" "0" true 0 10 "0" 1 [10] [0]) ∧
      mutR.thick_end = some 10 ∧ newR.thick_end = some 20 := by
  refine ⟨⟨some 12, some "chr1", some 0, some 20, some "n", some "0", some true,
      some 0, some 10, some "0", some 1, some [10], some [0]⟩,
    ⟨some 12, some "chr1", some 0, some 20, some "n", some "0", some true,
      some 0, some 20, some "0", some 1, some [10], some [0]⟩,
    ?_, ?_, ?_, ?_⟩ <;> decide

/-- C3 counterexample: the claim fails on the code.  For the input
`[[10,100), [20,30)]` (already sorted by (start, end)) the maximum end
is 100, but `total_span` returns the end of the LAST interval of the
sorted vector, producing `[10,30)` named `"chr1:10-30"` instead of the
claimed `[10,100)` named `"chr1:10-100"`. -/
theorem c3_total_span_not_max_end :
    total_span [(⟨some "chr1", some 10, some 100, some "a"⟩ : Interval),
        ⟨some "chr1", some 20, some 30, some "b"⟩] =
      some ⟨some "chr1", some 10, some 30, some "chr1:10-30"⟩ ∧
    total_span [(⟨some "chr1", some 10, some 100, some "a"⟩ : Interval),
        ⟨some "chr1", some 20, some 30, some "b"⟩] ≠
      some ⟨some "chr1", some 10, some 100, some "chr1:10-100"⟩ := by
  constructor
  · decide
  · decide

/-- C3 (amended): for every non-empty vector of intervals with defined
start and end whose first element after sorting by (start, end) has a
defined chromosome, `total_span` returns `[m, E)` on that chromosome
named `"chrom:m-E"`, where `m` is the minimum start over all inputs and
`E` is the end of the last interval of the sorted vector (the maximum
end only when the last-sorted interval attains it). -/
theorem c3_total_span_sorted_bounds (l : List Interval) (hne : l ≠ [])
    (hs : ∀ i ∈ l, i.start.isSome) (he : ∀ i ∈ l, i.end_.isSome)
    (hc : ((List.insertionSort coordLe l).head?.bind Interval.chrom).isSome) :
    ∃ c m e, total_span l = some ⟨some c, some m, some e, some (spanName c m e)⟩ ∧
      ((List.insertionSort coordLe l).head?.bind Interval.chrom = some c) ∧
      (∃ i ∈ l, i.start = some m) ∧
      (∀ i ∈ l, ∀ s, i.start = some s → m ≤ s) ∧
      ((List.insertionSort coordLe l).getLast?.bind Interval.end_ = some e) := by
  have hperm : (List.insertionSort coordLe l).Perm l := List.perm_insertionSort _ l
  have hsne : List.insertionSort coordLe l ≠ [] := by
    intro h0
    apply hne
    have hlen : l.length = 0 := by rw [← hperm.length_eq, h0]; rfl
    exact List.length_eq_zero.mp hlen
  cases hsl : List.insertionSort coordLe l with
  | nil => exact absurd hsl hsne
  | cons f t =>
    have hhead : (List.insertionSort coordLe l).head? = some f := by rw [hsl]; rfl
    rw [hhead] at hc
    simp only [Option.some_bind] at hc
    obtain ⟨c, hcc⟩ := Option.isSome_iff_exists.mp hc
    have hfl : f ∈ l := hperm.mem_iff.mp (by rw [hsl]; exact List.mem_cons_self f t)
    obtain ⟨m, hm⟩ := Option.isSome_iff_exists.mp (hs f hfl)
    have hlast : (List.insertionSort coordLe l).getLast? =
        some ((List.insertionSort coordLe l).getLast hsne) :=
      List.getLast?_eq_getLast _ hsne
    have hlal : (List.insertionSort coordLe l).getLast hsne ∈ l :=
      hperm.mem_iff.mp (List.getLast_mem hsne)
    obtain ⟨e, hee⟩ := Option.isSome_iff_exists.mp (he _ hlal)
    refine ⟨c, m, e, ?_, ?_, ⟨f, hfl, hm⟩, ?_, ?_⟩
    · simp only [total_span]
      rw [hhead, hlast]
      simp [hcc, hm, hee]
    · rw [← hsl, hhead]
      simp only [Option.some_bind]
      exact hcc
    · intro i hil s hsi
      have hisorted : i ∈ List.insertionSort coordLe l := hperm.mem_iff.mpr hil
      rw [hsl] at hisorted
      rcases List.mem_cons.mp hisorted with h | h
      · subst h
        rw [hm] at hsi
        injection hsi with h'
        omega
      · have hsorted2 : (List.insertionSort coordLe l).Sorted coordLe :=
          List.sorted_insertionSort coordLe l
        rw [hsl] at hsorted2
        have hrel := (List.sorted_cons.mp hsorted2).1 i h
        unfold coordLe at hrel
        simp only [coord_start_interval, coord_end_interval, hm, hsi,
          Option.getD_some] at hrel
        omega
    · rw [← hsl, hlast]
      simp only [Option.some_bind]
      exact hee

/-- C3 witness: the amended statement at the concrete singleton input
`[[5,9)]` on chrX. -/
theorem c3_total_span_sorted_bounds_witness :
    ∃ c m e, total_span [(⟨some "chrX", some 5, some 9, some "w"⟩ : Interval)] =
        some ⟨some c, some m, some e, some (spanName c m e)⟩ ∧
      ((List.insertionSort coordLe
          [(⟨some "chrX", some 5, some 9, some "w"⟩ : Interval)]).head?.bind
        Interval.chrom = some c) ∧
      (∃ i ∈ [(⟨some "chrX", some 5, some 9, some "w"⟩ : Interval)],
        i.start = some m) ∧
      (∀ i ∈ [(⟨some "chrX", some 5, some 9, some "w"⟩ : Interval)],
        ∀ s, i.start = some s → m ≤ s) ∧
      ((List.insertionSort coordLe
          [(⟨some "chrX", some 5, some 9, some "w"⟩ : Interval)]).getLast?.bind
        Interval.end_ = some e) :=
  c3_total_span_sorted_bounds [⟨some "chrX", some 5, some 9, some "w"⟩]
    (by decide) (by decide) (by decide) (by decide)

/-- C4: the claim fails on the code.  For the plus-strand record
`chr1 [1000,2000)`, CDS `[1000,1500)`, blocks `[1000,1500)` and
`[1700,2000)`, in `3utr` mode the first retained unit is the wholly
downstream block with absolute start 1700, but the code sets the output
origin to `block_start - thin_start = 700` (a thin-relative offset, not
the absolute start), emitting `thin_start = 700` and the stored block
start `1000` instead of origin 1700 with stored start 0. -/
theorem c4_seq_start_relative_offset :
    bed_to_fraction "chr1" "n" "0" "+" "0" 1000 2000 1000 1500 2
      [500, 300] [0, 700] BedFractionMode.Utr3 false false =
      FractionOut.line "chr1\t700\t2000\tn\t0\t+\t2000\t2000\t0\t1\t300,\t1000," := by
  decide

/-- C5: the claim fails on the code.  For the well-formed non-coding
record `chr1 1000 2000 n 0 + 1000 1000 0 1 1000, 0,` (thick point at
`thin_start`), the `All` fraction without introns and without block
splitting rewrites the relative block start `0` to the absolute
coordinate `1000` (via the same mis-anchored origin as C4), so the
output line differs from the input line: the extraction is not the
identity. -/
theorem c5_all_fraction_not_identity :
    bed_to_fraction "chr1" "n" "0" "+" "0" 1000 2000 1000 1000 1
      [1000] [0] BedFractionMode.All false false =
      FractionOut.line "chr1\t1000\t2000\tn\t0\t+\t1000\t1000\t0\t1\t1000,\t1000," ∧
    ("chr1\t1000\t2000\tn\t0\t+\t1000\t1000\t0\t1\t1000,\t1000," : String) ≠
      "chr1\t1000\t2000\tn\t0\t+\t1000\t1000\t0\t1\t1000,\t0," := by
  constructor
  · decide
  · decide

/-- C6: the `Cds` fraction in exon mode of the reference record
`chr9 101360416 101385006 ENST00000259407.7#BAAT 0 - 101362427 101371404
0 4 2599,203,525,152, 0,7703,10522,24438,` is exactly the line stated by
the claim. -/
theorem c6_cds_exon_concrete :
    bed_to_fraction "chr9" "ENST00000259407.7#BAAT" "0" "-" "0"
      101360416 101385006 101362427 101371404 4
      [2599, 203, 525, 152] [0, 7703, 10522, 24438]
      BedFractionMode.Cds false false =
      FractionOut.line
        "chr9\t101362427\t101371404\tENST00000259407.7#BAAT\t0\t-\t101362427\t101371404\t0\t3\t588,203,466,\t0,5692,8511," := by
  decide

/-- C7: for coordinates with `s1 ≤ e1` and `s2 ≤ e2`, `intersection`
returns exactly `min(e1,e2) - max(s1,s2)` when that (integer) difference
is non-negative — zero, the touching case, included — and `none`
otherwise. -/
theorem c7_intersection_checked_difference (s1 e1 s2 e2 : Nat)
    (_h1 : s1 ≤ e1) (_h2 : s2 ≤ e2) :
    (∀ n : Nat, intersection s1 e1 s2 e2 = some n ↔
      ((n : Int) = (min e1 e2 : Int) - (max s1 s2 : Int) ∧
        0 ≤ (min e1 e2 : Int) - (max s1 s2 : Int))) ∧
    (intersection s1 e1 s2 e2 = none ↔
      (min e1 e2 : Int) - (max s1 s2 : Int) < 0) := by
  have hmain : intersection s1 e1 s2 e2 =
      (if max s1 s2 ≤ min e1 e2 then some (min e1 e2 - max s1 s2) else none) := rfl
  by_cases h : max s1 s2 ≤ min e1 e2
  · rw [if_pos h] at hmain
    refine ⟨fun n => ?_, ?_⟩
    · rw [hmain]
      constructor
      · intro hn
        injection hn with hn
        omega
      · rintro ⟨ha, _⟩
        congr 1
        omega
    · rw [hmain]
      constructor
      · intro hn
        exact absurd hn (by simp)
      · intro hlt
        omega
  · rw [if_neg h] at hmain
    refine ⟨fun n => ?_, ?_⟩
    · rw [hmain]
      constructor
      · intro hn
        exact absurd hn (by simp)
      · rintro ⟨_, hb⟩
        omega
    · rw [hmain]
      constructor
      · intro _
        omega
      · intro _
        rfl

/-- C7 witness: the overlap `[10,20) ∩ [15,23)` from the source's doc
example has size 5 = min(20,23) - max(10,15) ≥ 0. -/
theorem c7_intersection_checked_difference_witness :
    (∀ n : Nat, intersection 10 20 15 23 = some n ↔
      ((n : Int) = (min 20 23 : Int) - (max 10 15 : Int) ∧
        0 ≤ (min 20 23 : Int) - (max 10 15 : Int))) ∧
    (intersection 10 20 15 23 = none ↔
      (min 20 23 : Int) - (max 10 15 : Int) < 0) :=
  c7_intersection_checked_difference 10 20 15 23 (by decide) (by decide)

/-- C8: for every record whose coordinate fields pass the validation
checks, fraction extraction with `ex_num = 1` (single block) and
introns enabled returns the "no data" result, for every mode and both
output forms: the intron range `0..0` is empty. -/
theorem c8_single_block_intron_no_data
    (chrom name score strand_line rgb : String)
    (thin_start thin_end thick_start thick_end : Nat)
    (exon_sizes exon_starts : List Nat) (mode : BedFractionMode) (bed6 : Bool)
    (h1 : thin_start ≤ thin_end) (h2 : thin_start ≤ thick_start)
    (h3 : thick_start ≤ thick_end) (h4 : thick_end ≤ thin_end) :
    bed_to_fraction chrom name score strand_line rgb thin_start thin_end
      thick_start thick_end 1 exon_sizes exon_starts mode true bed6 =
      FractionOut.noData := by
  unfold bed_to_fraction
  rw [if_neg (by omega), if_neg (by omega), if_neg (by omega), if_neg (by omega)]
  rfl

/-- C8 witness: the single-block record `chr1 [0,10)` with CDS `[2,8)`
in `Cds` intron mode yields "no data". -/
theorem c8_single_block_intron_no_data_witness :
    bed_to_fraction "chr1" "n" "0" "+" "0" 0 10 2 8 1 [10] [0]
      BedFractionMode.Cds true false = FractionOut.noData :=
  c8_single_block_intron_no_data "chr1" "n" "0" "+" "0" 0 10 2 8 [10] [0]
    BedFractionMode.Cds false (by decide) (by decide) (by decide) (by decide)

/-- C9: for every strand string other than "+" and every supported
format of at least six columns, parsing a well-formed record succeeds
and records the strand as negative: the strand symbol is never
validated. -/
theorem c9_strand_not_validated
    (strand_line : String) (hs : strand_line ≠ "+")
    (format : Nat) (hf : format = 6 ∨ format = 8 ∨ format = 9 ∨ format = 12)
    (chrom name score rgb : String)
    (thin_start thin_end thick_start thick_end ex_num : Nat)
    (exon_sizes exon_starts : List Nat)
    (h1 : thin_start ≤ thin_end) (h2 : thin_start ≤ thick_start)
    (h3 : thick_start ≤ thick_end) (h4 : thick_end ≤ thin_end) :
    ∃ b, parse_bed format chrom name score strand_line rgb thin_start thin_end
      thick_start thick_end ex_num exon_sizes exon_starts = some b ∧
      b.strand = some false := by
  have hb : (strand_line == "+") = false := beq_eq_false_iff_ne.mpr hs
  have e1 : ¬ (thin_end < thin_start) := by omega
  have e2 : ¬ (thick_start < thin_start) := by omega
  have e3 : ¬ (thin_end < thick_end) := by omega
  have e4 : ¬ (thick_end < thick_start) := by omega
  rcases hf with h | h | h | h <;> subst h
  · refine ⟨BedEntry.bed6 chrom thin_start thin_end name score false, ?_, ?_⟩
    · simp [parse_bed, e1, hb]
    · simp [BedEntry.bed6, BedEntry.bed5, BedEntry.bed4, BedEntry.bed3,
        BedEntry.empty]
  · refine ⟨BedEntry.bed8 chrom thin_start thin_end name score false
      thick_start thick_end, ?_, ?_⟩
    · simp [parse_bed, e1, e2, e3, e4, hb]
    · simp [BedEntry.bed8, BedEntry.bed6, BedEntry.bed5, BedEntry.bed4,
        BedEntry.bed3, BedEntry.empty]
  · refine ⟨BedEntry.bed9 chrom thin_start thin_end name score false
      thick_start thick_end rgb, ?_, ?_⟩
    · simp [parse_bed, e1, e2, e3, e4, hb]
    · simp [BedEntry.bed9, BedEntry.bed8, BedEntry.bed6, BedEntry.bed5,
        BedEntry.bed4, BedEntry.bed3, BedEntry.empty]
  · refine ⟨BedEntry.bed12 chrom thin_start thin_end name score false
      thick_start thick_end rgb ex_num exon_sizes exon_starts, ?_, ?_⟩
    · simp [parse_bed, e1, e2, e3, e4, hb]
    · simp [BedEntry.bed12, BedEntry.bed9, BedEntry.bed8, BedEntry.bed6,
        BedEntry.bed5, BedEntry.bed4, BedEntry.bed3, BedEntry.empty]

/-- C9 witness: the BED6 line with strand column "." parses successfully
with a negative strand. -/
theorem c9_strand_not_validated_witness :
    ∃ b, parse_bed 6 "chr1" "n" "0" "." "0" 100 200 100 200 0 [] [] = some b ∧
      b.strand = some false :=
  c9_strand_not_validated "." (by decide) 6 (Or.inl rfl) "chr1" "n" "0" "0"
    100 200 100 200 0 [] [] (by decide) (by decide) (by decide) (by decide)

/-- C10: for every twelve-column record whose coordinate fields pass the
validation checks but whose exon-count field is 0, fraction extraction
with introns enabled aborts (the unsigned `ex_num - 1` underflows while
building the intron range) instead of returning "no data" or an error
value. -/
theorem c10_zero_exon_intron_underflow_aborts
    (chrom name score strand_line rgb : String)
    (thin_start thin_end thick_start thick_end : Nat)
    (exon_sizes exon_starts : List Nat) (mode : BedFractionMode) (bed6 : Bool)
    (h1 : thin_start ≤ thin_end) (h2 : thin_start ≤ thick_start)
    (h3 : thick_start ≤ thick_end) (h4 : thick_end ≤ thin_end) :
    bed_to_fraction chrom name score strand_line rgb thin_start thin_end
      thick_start thick_end 0 exon_sizes exon_starts mode true bed6 =
      FractionOut.crash := by
  unfold bed_to_fraction
  rw [if_neg (by omega), if_neg (by omega), if_neg (by omega), if_neg (by omega)]
  rfl

/-- C10 witness: the concrete line
`chr1 100 200 n 0 + 100 200 0 0 , ,` under `Cds` intron mode aborts. -/
theorem c10_zero_exon_intron_underflow_aborts_witness :
    bed_to_fraction "chr1" "n" "0" "+" "0" 100 200 100 200 0 [] []
      BedFractionMode.Cds true false = FractionOut.crash :=
  c10_zero_exon_intron_underflow_aborts "chr1" "n" "0" "+" "0" 100 200 100 200
    [] [] BedFractionMode.Cds false (by decide) (by decide) (by decide) (by decide)

end Cubiculum
